import Mathlib

/-!
Shallow embedding of `hooks/lib/policies.py` from the rabbitmq-server charm.

The module defines three policy value objects (`BasePolicy`, `TTLPolicy`,
`HAPolicy`), validated enumeration setters, JSON definition rendering, and
an apply/clear protocol that shells out to `rabbitmqctl` and reports
failures through the charm status facility.  External collaborators
(process execution via `check_output`, `status_set`, `log`, `cmp_pkgrevno`)
are modelled as an explicit environment, and the side effects of a call are
collected as a trace of events.
-/

namespace RabbitPolicies

/-- Severity levels of the structured logger collaborator. -/
inductive Level
  | DEBUG
  | INFO
  | ERROR
  | WARNING
  deriving DecidableEq, Repr

/-- Failure signals the process-execution collaborator can raise inside the
`try` blocks of `set`/`clear`: `subprocess.CalledProcessError` and
`ValueError` (the two exception classes named by the code). -/
inductive ExecFailure
  | calledProcessError (returncode : Int) (cmd : String)
  | valueError
  deriving DecidableEq, Repr

/-- Observable side effects of a `set`/`clear` call: a log entry, a
`status_set` invocation, or the issuing of a command argument vector to the
process-execution collaborator. -/
inductive Event
  | log (lvl : Level) (msg : String)
  | statusSet (state : String) (msg : String)
  | exec (argv : List String)
  deriving DecidableEq, Repr

/-- Environment of external collaborators: the result the process-execution
facility produces for a given argument vector, and the signed package
version comparison `cmp_pkgrevno`. -/
structure Env where
  execResult : List String → Except ExecFailure String
  cmpPkgrevno : String → String → Int

/-- Errors raised synchronously at construction or mutation time.  The code
raises Python `ValueError`; the specification names this condition
`InvalidEnumValue`. -/
inductive PolicyError
  | invalidEnumValue (msg : String)
  deriving DecidableEq, Repr

/-- Python `str` applied to an optional string argument: `str(None)` is the
four-character string `"None"`. -/
def pyStr : Option String → String
  | none => "None"
  | some s => s

/-- Member names of the `ApplyToTypes` enumeration. -/
def ApplyToMembers : List String := ["queues", "exchanges", "all"]

/-- Member names of the `ModeTypes` enumeration of `HAPolicy`. -/
def ModeMembers : List String := ["all", "exactly", "nodes"]

/-- Member names of the `SyncModeTypes` enumeration of `HAPolicy`. -/
def SyncModeMembers : List String := ["automatic", "manual"]

/-- The `apply_to` property setter: keeps the value when it is a member of
`ApplyToTypes`, raises `ValueError` otherwise. -/
def applyToSet (value : String) : Except PolicyError String :=
  if ApplyToMembers.contains value then Except.ok value
  else Except.error (PolicyError.invalidEnumValue
    ("Value " ++ value ++ " not in ApplyToTypes."))

/-- The `mode` property setter of `HAPolicy`. -/
def modeSet (value : String) : Except PolicyError String :=
  if ModeMembers.contains value then Except.ok value
  else Except.error (PolicyError.invalidEnumValue
    ("Value " ++ value ++ " not in ModeTypes."))

/-- The `sync_mode` property setter of `HAPolicy`. -/
def syncModeSet (value : String) : Except PolicyError String :=
  if SyncModeMembers.contains value then Except.ok value
  else Except.error (PolicyError.invalidEnumValue
    ("Value " ++ value ++ " not in SyncModeTypes."))

/-- Field record of a constructed `BasePolicy`. -/
structure BasePolicyData where
  vhost : String
  name : String
  pattern : String
  definition : String
  apply_to : String
  priority : String
  type : String
  deriving DecidableEq, Repr

/-- Field record of a constructed `TTLPolicy`; `definition` is computed, not
stored. -/
structure TTLPolicyData where
  vhost : String
  name : String
  pattern : String
  apply_to : String
  priority : String
  type : String
  ttl : Int
  message_ttl : Bool
  deriving DecidableEq, Repr

/-- Field record of a constructed `HAPolicy`; `definition` is computed, not
stored.  `params` is stored without `str` coercion (the code assigns it
raw), so `None` stays an absent value. -/
structure HAPolicyData where
  vhost : String
  name : String
  pattern : String
  apply_to : String
  priority : String
  params : Option String
  type : String
  mode : String
  sync_mode : String
  deriving DecidableEq, Repr

/-- `BasePolicy.__init__`: coerces every field with `str` and routes
`apply_to` through the validated property setter.  `pattern` and
`definition` default to `None` in the code, hence the `Option` inputs. -/
def mkBasePolicy (vhost name : String) (pattern definition : Option String)
    (apply_to priority type : String) : Except PolicyError BasePolicyData :=
  (applyToSet apply_to).map fun a =>
    { vhost := vhost, name := name, pattern := pyStr pattern,
      definition := pyStr definition, apply_to := a,
      priority := priority, type := type }

/-- `TTLPolicy.__init__`: `pattern` is mandatory; `ttl` is coerced with
`int` and `message_ttl` with `bool` (modelled as typed inputs). -/
def mkTTLPolicy (vhost name pattern apply_to priority type : String)
    (ttl : Int) (message_ttl : Bool) : Except PolicyError TTLPolicyData :=
  (applyToSet apply_to).map fun a =>
    { vhost := vhost, name := name, pattern := pattern, apply_to := a,
      priority := priority, type := type, ttl := ttl,
      message_ttl := message_ttl }

/-- `HAPolicy.__init__`: `pattern` is mandatory; `apply_to`, `mode` and
`sync_mode` route through their validated property setters, in the order
the constructor assigns them. -/
def mkHAPolicy (vhost name pattern apply_to priority : String)
    (params : Option String) (type mode sync_mode : String) :
    Except PolicyError HAPolicyData :=
  (applyToSet apply_to).bind fun a =>
    (modeSet mode).bind fun m =>
      (syncModeSet sync_mode).map fun sm =>
        { vhost := vhost, name := name, pattern := pattern, apply_to := a,
          priority := priority, params := params, type := type,
          mode := m, sync_mode := sm }

/-- Mutation of `apply_to` on a base policy object (the property setter
revalidates on every assignment). -/
def BasePolicyData.assignApplyTo (p : BasePolicyData) (v : String) :
    Except PolicyError BasePolicyData :=
  (applyToSet v).map fun a => { p with apply_to := a }

/-- Mutation of `apply_to` on a TTL policy object. -/
def TTLPolicyData.assignApplyTo (p : TTLPolicyData) (v : String) :
    Except PolicyError TTLPolicyData :=
  (applyToSet v).map fun a => { p with apply_to := a }

/-- Mutation of `apply_to` on an HA policy object. -/
def HAPolicyData.assignApplyTo (p : HAPolicyData) (v : String) :
    Except PolicyError HAPolicyData :=
  (applyToSet v).map fun a => { p with apply_to := a }

/-- Mutation of `mode` on an HA policy object. -/
def HAPolicyData.assignMode (p : HAPolicyData) (v : String) :
    Except PolicyError HAPolicyData :=
  (modeSet v).map fun m => { p with mode := m }

/-- Mutation of `sync_mode` on an HA policy object. -/
def HAPolicyData.assignSyncMode (p : HAPolicyData) (v : String) :
    Except PolicyError HAPolicyData :=
  (syncModeSet v).map fun sm => { p with sync_mode := sm }

/-- Primitive JSON values appearing in the policy definitions. -/
inductive JVal
  | int (n : Int)
  | str (s : String)
  | null
  deriving DecidableEq, Repr

/-- Serialization of one primitive JSON value, as `json.dumps` renders it. -/
def JVal.dump : JVal → String
  | JVal.int n => toString n
  | JVal.str s => "\"" ++ s ++ "\""
  | JVal.null => "null"

/-- Serialization of the members of a JSON object with the default
`json.dumps` item separator `", "` and key separator `": "`. -/
def dumpMembers : List (String × JVal) → String
  | [] => ""
  | [kv] => "\"" ++ kv.1 ++ "\": " ++ kv.2.dump
  | kv :: rest => "\"" ++ kv.1 ++ "\": " ++ kv.2.dump ++ ", " ++ dumpMembers rest

/-- `json.dumps` of a JSON object given as its insertion-ordered members. -/
def jsonDumps (kvs : List (String × JVal)) : String :=
  "\x7b" ++ dumpMembers kvs ++ "\x7d"

/-- Insertion-ordered members of the dict built by the `TTLPolicy.definition`
property: `message-ttl` when `message_ttl` is true, the (misspelled)
`experies` key otherwise. -/
def TTLPolicyData.definitionMembers (p : TTLPolicyData) : List (String × JVal) :=
  if p.message_ttl then [("message-ttl", JVal.int p.ttl)]
  else [("experies", JVal.int p.ttl)]

/-- The computed `definition` property of `TTLPolicy`. -/
def TTLPolicyData.definition (p : TTLPolicyData) : String :=
  jsonDumps p.definitionMembers

/-- The JSON value `json.dumps` produces for the raw `params` attribute:
`null` for `None`, a JSON string otherwise. -/
def paramsJVal : Option String → JVal
  | none => JVal.null
  | some s => JVal.str s

/-- Insertion-ordered members of the dict built by the `HAPolicy.definition`
property: `ha-mode` and `ha-sync-mode` always, with `ha-params` appended
when `mode` differs from `"all"`. -/
def HAPolicyData.definitionMembers (p : HAPolicyData) : List (String × JVal) :=
  let d := [("ha-mode", JVal.str p.mode), ("ha-sync-mode", JVal.str p.sync_mode)]
  if p.mode ≠ "all" then d ++ [("ha-params", paramsJVal p.params)] else d

/-- The computed `definition` property of `HAPolicy`. -/
def HAPolicyData.definition (p : HAPolicyData) : String :=
  jsonDumps p.definitionMembers

/-- A policy object of any of the three variants (all are instances of
`BasePolicy`, so `__eq__` compares them across variants). -/
inductive Policy
  | base (p : BasePolicyData)
  | ttl (p : TTLPolicyData)
  | ha (p : HAPolicyData)
  deriving DecidableEq, Repr

/-- The `vhost` attribute of a policy of any variant. -/
def Policy.vhostOf : Policy → String
  | Policy.base p => p.vhost
  | Policy.ttl p => p.vhost
  | Policy.ha p => p.vhost

/-- The `name` attribute of a policy of any variant. -/
def Policy.nameOf : Policy → String
  | Policy.base p => p.name
  | Policy.ttl p => p.name
  | Policy.ha p => p.name

/-- The `pattern` attribute of a policy of any variant. -/
def Policy.patternOf : Policy → String
  | Policy.base p => p.pattern
  | Policy.ttl p => p.pattern
  | Policy.ha p => p.pattern

/-- The `definition` attribute of a policy: stored for the base variant,
computed for the TTL and HA variants. -/
def Policy.definitionOf : Policy → String
  | Policy.base p => p.definition
  | Policy.ttl p => p.definition
  | Policy.ha p => p.definition

/-- The `apply_to` attribute of a policy of any variant. -/
def Policy.applyToOf : Policy → String
  | Policy.base p => p.apply_to
  | Policy.ttl p => p.apply_to
  | Policy.ha p => p.apply_to

/-- The `priority` attribute of a policy of any variant. -/
def Policy.priorityOf : Policy → String
  | Policy.base p => p.priority
  | Policy.ttl p => p.priority
  | Policy.ha p => p.priority

/-- The Python class name of a policy object, as interpolated into the log
messages. -/
def Policy.className : Policy → String
  | Policy.base _ => "BasePolicy"
  | Policy.ttl _ => "TTLPolicy"
  | Policy.ha _ => "HAPolicy"

/-- `BasePolicy._key`: the identity key `(vhost, name)`. -/
def Policy.key (p : Policy) : String × String :=
  (p.vhostOf, p.nameOf)

/-- `BasePolicy.__eq__`: two policy objects (of any variants, since all pass
the `isinstance` check) compare equal exactly when their keys do. -/
def Policy.beq (p q : Policy) : Bool :=
  p.key == q.key

/-- `BasePolicy.__hash__`: delegates to the builtin tuple hash applied to
`_key()`; the builtin is modelled as the function `h`. -/
def Policy.pyHash (h : String × String → Int) (p : Policy) : Int :=
  h p.key

/-- Python `str` of the exception instances that the handlers format into
the error log entry. -/
def describeExc : ExecFailure → String
  | ExecFailure.calledProcessError code cmd =>
      "Command \x27" ++ cmd ++ "\x27 returned non-zero exit status "
        ++ toString code ++ "."
  | ExecFailure.valueError => ""

/-- `HAPolicy.check`: compares the installed rabbitmq-server against 3.0.0;
below it, logs a warning and an informational pointer and answers false. -/
def haCheck (env : Env) : Bool × List Event :=
  if env.cmpPkgrevno "rabbitmq-server" "3.0.0" < 0 then
    (false,
      [Event.log Level.WARNING
        ("Mirroring queues cannot be enabled, only supported "
          ++ "in rabbitmq-server >= 3.0"),
       Event.log Level.INFO
        ("More information at http://www.rabbitmq.com/blog/"
          ++ "2012/11/19/breaking-things-with-rabbitmq-3-0")])
  else (true, [])

/-- Dynamic dispatch of `check`: the base default (always true, no output)
for `BasePolicy` and `TTLPolicy`, the version gate for `HAPolicy`. -/
def Policy.checkRun (env : Env) : Policy → Bool × List Event
  | Policy.base _ => (true, [])
  | Policy.ttl _ => (true, [])
  | Policy.ha _ => haCheck env

/-- `BasePolicy.set` with the dynamically dispatched `check` outcome and
class name: when `check()` holds, logs the debug line, issues the
`set_policy` command vector, and either logs the captured output at INFO
and returns it, or (on `CalledProcessError`/`ValueError`) logs the error at
ERROR, sets blocked status, and returns `None`.  When `check()` fails it
does nothing further and returns `None`. -/
def runSet (env : Env) (cls : String) (chk : Bool × List Event)
    (vhost name pattern definition apply_to priority : String) :
    Option String × List Event :=
  if chk.1 then
    let dbg := Event.log Level.DEBUG
      ("Setting policy " ++ cls ++ " to vhost: \x27" ++ vhost
        ++ "\x27 with name: \x27" ++ name ++ "\x27")
    let argv := ["rabbitmqctl", "set_policy", "-p", vhost, name, pattern,
      definition, "--apply-to", apply_to, "--priority", priority]
    match env.execResult argv with
    | Except.ok result =>
        (some result, chk.2 ++ [dbg, Event.exec argv, Event.log Level.INFO result])
    | Except.error e =>
        let msg := "RabbitMQ failed to create policy " ++ name
        (none, chk.2 ++ [dbg, Event.exec argv,
          Event.log Level.ERROR (describeExc e ++ ", " ++ msg),
          Event.statusSet "blocked" msg])
  else (none, chk.2)

/-- `set()` of a policy object.  `BasePolicy.set` returns the base result;
`TTLPolicy.set` and `HAPolicy.set` are `super().set()` without a `return`
statement, so they produce the same side effects but return `None`. -/
def Policy.set (env : Env) : Policy → Option String × List Event
  | Policy.base p =>
      runSet env "BasePolicy" (true, []) p.vhost p.name p.pattern
        p.definition p.apply_to p.priority
  | Policy.ttl p =>
      (none, (runSet env "TTLPolicy" (true, []) p.vhost p.name p.pattern
        p.definition p.apply_to p.priority).2)
  | Policy.ha p =>
      (none, (runSet env "HAPolicy" (haCheck env) p.vhost p.name p.pattern
        p.definition p.apply_to p.priority).2)

/-- What `super().set()` evaluates to inside the overriding `set` of a
subclass: the inherited base logic applied to the fields of the object, with the
dynamically dispatched `check` and class name. -/
def Policy.inheritedSet (env : Env) (p : Policy) : Option String × List Event :=
  runSet env p.className (p.checkRun env) p.vhostOf p.nameOf p.patternOf
    p.definitionOf p.applyToOf p.priorityOf

/-- Outcome of a `clear()` call: `raised` carries an exception the handler
did not catch (`clear` only catches `CalledProcessError`), `result` the
returned value, and `events` the side effects up to return or raise. -/
structure ClearOutcome where
  raised : Option ExecFailure
  result : Option String
  events : List Event
  deriving DecidableEq, Repr

/-- `BasePolicy.clear`: logs the debug line, issues the `clear_policy`
command vector, and either logs and returns the captured output, or on
`CalledProcessError` logs the error, sets blocked status, and returns
`None`; any other exception propagates. -/
def Policy.clear (env : Env) (p : Policy) : ClearOutcome :=
  let dbg := Event.log Level.DEBUG
    ("Clearing policy " ++ p.className ++ " to vhost: \x27" ++ p.vhostOf
      ++ "\x27 with name: \x27" ++ p.nameOf ++ "\x27")
  let argv := ["rabbitmqctl", "clear_policy", "-p", p.vhostOf, p.nameOf]
  match env.execResult argv with
  | Except.ok result =>
      { raised := none, result := some result,
        events := [dbg, Event.exec argv, Event.log Level.INFO result] }
  | Except.error (ExecFailure.calledProcessError code cmd) =>
      let msg := "RabbitMQ failed to clear policy " ++ p.nameOf
      { raised := none, result := none,
        events := [dbg, Event.exec argv,
          Event.log Level.ERROR
            (describeExc (ExecFailure.calledProcessError code cmd) ++ ", " ++ msg),
          Event.statusSet "blocked" msg] }
  | Except.error ExecFailure.valueError =>
      { raised := some ExecFailure.valueError, result := none,
        events := [dbg, Event.exec argv] }

/-- The argument vectors issued to the process-execution collaborator
within a trace. -/
def execArgvs (evs : List Event) : List (List String) :=
  evs.foldr (fun e acc => match e with
    | Event.exec argv => argv :: acc
    | _ => acc) []

/-- The ERROR-severity log entries within a trace. -/
def errorLogs (evs : List Event) : List Event :=
  evs.filter fun e => match e with
    | Event.log Level.ERROR _ => true
    | _ => false

/-- The `status_set` invocations within a trace. -/
def statusCalls (evs : List Event) : List Event :=
  evs.filter fun e => match e with
    | Event.statusSet _ _ => true
    | _ => false

/-- Environment whose process execution always succeeds with output `"ok"`
and whose installed rabbitmq-server compares newer than any bound. -/
def envOk : Env :=
  { execResult := fun _ => Except.ok "ok", cmpPkgrevno := fun _ _ => 1 }

/-- Environment whose process execution always raises
`CalledProcessError(1, "cmd")`. -/
def envFail : Env :=
  { execResult := fun _ => Except.error (ExecFailure.calledProcessError 1 "cmd"),
    cmpPkgrevno := fun _ _ => 1 }

/-- Environment whose installed rabbitmq-server compares older than any
bound. -/
def envOld : Env :=
  { execResult := fun _ => Except.ok "ok", cmpPkgrevno := fun _ _ => -1 }

/-- A concrete TTL policy, fields as in the unit tests. -/
def ttlSample : TTLPolicyData :=
  { vhost := "openstack", name := "TTL", pattern := "foo",
    apply_to := "queues", priority := "1", type := "ttl",
    ttl := 3600000, message_ttl := true }

/-- A concrete HA policy, fields as in the spec example scenario. -/
def haSample : HAPolicyData :=
  { vhost := "/", name := "HA", pattern := "^(?!amq\\.).*",
    apply_to := "queues", priority := "1", params := none,
    type := "ha", mode := "all", sync_mode := "automatic" }

/-- A concrete base policy, fields as in the unit tests. -/
def baseSample : BasePolicyData :=
  { vhost := "/", name := "HA", pattern := "^(?!amq\\.).*",
    definition := "\x7b\"ha-mode\": \"all\", \"ha-sync-mode\": \"automatic\"\x7d",
    apply_to := "queues", priority := "1", type := "generic" }

/-- C3: for every TTLPolicy with integer ttl X, the computed definition is
the JSON serialization of \x7b"message-ttl": X\x7d when `message_ttl` is
true, and of \x7b"experies": X\x7d (exactly that key spelling) when it is
false. -/
theorem ttl_definition_keys (p : TTLPolicyData) :
    p.definition = (if p.message_ttl
      then "\x7b\"message-ttl\": " ++ toString p.ttl ++ "\x7d"
      else "\x7b\"experies\": " ++ toString p.ttl ++ "\x7d") := by
  cases hm : p.message_ttl <;>
    simp only [TTLPolicyData.definition, TTLPolicyData.definitionMembers, hm,
      jsonDumps, dumpMembers, JVal.dump, if_true, if_false, Bool.false_eq_true,
      ite_true, ite_false] <;>
    simp only [← String.append_assoc] <;> rfl

/-- C4: two policy objects of any variants are equal exactly when their
`(vhost, name)` keys are equal, and equal keys force equal hashes; no other
field enters either. -/
theorem policy_eq_hash_key_only (p q : Policy) :
    (Policy.beq p q = true ↔ p.key = q.key) ∧
    ∀ h : String × String → Int, p.key = q.key →
      Policy.pyHash h p = Policy.pyHash h q := by
  refine ⟨?_, ?_⟩
  · simp [Policy.beq]
  · intro h hk
    simp [Policy.pyHash, hk]

/-- Witness for C4 at concrete inputs: a base policy and an HA policy with
the same `(vhost, name)` but unequal patterns, definitions and types hash
identically under a sample hash function. -/
theorem policy_eq_hash_key_only_witness :
    Policy.pyHash (fun kv => (kv.1.length : Int) + kv.2.length)
        (Policy.base baseSample) =
      Policy.pyHash (fun kv => (kv.1.length : Int) + kv.2.length)
        (Policy.ha haSample) :=
  (policy_eq_hash_key_only (Policy.base baseSample) (Policy.ha haSample)).2
    (fun kv => (kv.1.length : Int) + kv.2.length) rfl

/-- C7: the HA definition members always carry `ha-mode` and `ha-sync-mode`
and carry `ha-params` (at the configured `params`) exactly when `mode` is
not `"all"`; the rendered definition is their JSON object serialization. -/
theorem ha_definition_shape (p : HAPolicyData) :
    List.lookup "ha-mode" p.definitionMembers = some (JVal.str p.mode) ∧
    List.lookup "ha-sync-mode" p.definitionMembers = some (JVal.str p.sync_mode) ∧
    List.lookup "ha-params" p.definitionMembers =
      (if p.mode = "all" then none else some (paramsJVal p.params)) ∧
    p.definition = (if p.mode = "all"
      then "\x7b\"ha-mode\": \"" ++ p.mode ++ "\", \"ha-sync-mode\": \""
        ++ p.sync_mode ++ "\"\x7d"
      else "\x7b\"ha-mode\": \"" ++ p.mode ++ "\", \"ha-sync-mode\": \""
        ++ p.sync_mode ++ "\", \"ha-params\": " ++ (paramsJVal p.params).dump
        ++ "\x7d") := by
  by_cases hm : p.mode = "all"
  · have hd : p.definitionMembers =
        [("ha-mode", JVal.str p.mode), ("ha-sync-mode", JVal.str p.sync_mode)] := by
      simp [HAPolicyData.definitionMembers, hm]
    refine ⟨?_, ?_, ?_, ?_⟩
    · rw [hd]; rfl
    · rw [hd]; rfl
    · rw [hd, if_pos hm]; rfl
    · simp only [HAPolicyData.definition]
      rw [hd, if_pos hm]
      simp only [jsonDumps, dumpMembers, JVal.dump]
      apply String.ext
      simp only [String.data_append, List.append_assoc]
      rfl
  · have hd : p.definitionMembers =
        [("ha-mode", JVal.str p.mode), ("ha-sync-mode", JVal.str p.sync_mode),
          ("ha-params", paramsJVal p.params)] := by
      simp [HAPolicyData.definitionMembers, hm]
    refine ⟨?_, ?_, ?_, ?_⟩
    · rw [hd]; rfl
    · rw [hd]; rfl
    · rw [hd, if_neg hm]; rfl
    · simp only [HAPolicyData.definition]
      rw [hd, if_neg hm]
      simp only [jsonDumps, dumpMembers, JVal.dump]
      apply String.ext
      simp only [String.data_append, List.append_assoc]
      rfl

/-- C10: a BasePolicy constructed with the default `pattern=None` and
`definition=None` stores the literal string `"None"` in both fields, and
its `set()` places `"None"` in the pattern and definition positions of the
issued command vector. -/
theorem none_defaults_stringified (vh nm : String) :
    ∃ p, mkBasePolicy vh nm none none "queues" "1" "generic" = Except.ok p ∧
      p.pattern = "None" ∧ p.definition = "None" ∧
      ∀ env : Env, execArgvs (Policy.set env (Policy.base p)).2 =
        [["rabbitmqctl", "set_policy", "-p", vh, nm, "None", "None",
          "--apply-to", "queues", "--priority", "1"]] := by
  refine ⟨_, rfl, rfl, rfl, ?_⟩
  intro env
  simp only [Policy.set, runSet, pyStr, if_true, ite_true]
  cases henv : env.execResult ["rabbitmqctl", "set_policy", "-p", vh, nm,
      "None", "None", "--apply-to", "queues", "--priority", "1"] <;>
    simp [execArgvs]

/-- With the installed version at least 3.0.0, `HAPolicy.check` answers
true and produces no output. -/
theorem haCheck_of_ge (env : Env)
    (h : 0 ≤ env.cmpPkgrevno "rabbitmq-server" "3.0.0") :
    haCheck env = (true, []) := by
  simp [haCheck, not_lt.2 h]

/-- With the installed version older than 3.0.0, `HAPolicy.check` answers
false after logging the warning and the documentation pointer. -/
theorem haCheck_of_lt (env : Env)
    (h : env.cmpPkgrevno "rabbitmq-server" "3.0.0" < 0) :
    haCheck env =
      (false,
        [Event.log Level.WARNING
          ("Mirroring queues cannot be enabled, only supported "
            ++ "in rabbitmq-server >= 3.0"),
         Event.log Level.INFO
          ("More information at http://www.rabbitmq.com/blog/"
            ++ "2012/11/19/breaking-things-with-rabbitmq-3-0")]) := by
  simp [haCheck, h]

/-- A positive `HAPolicy.check` outcome forces the silent true branch. -/
theorem haCheck_true_eq (env : Env) (h : (haCheck env).1 = true) :
    haCheck env = (true, []) := by
  by_cases hc : env.cmpPkgrevno "rabbitmq-server" "3.0.0" < 0
  · rw [haCheck_of_lt env hc] at h
    simp at h
  · exact haCheck_of_ge env (not_lt.1 hc)

/-- C6: for every HAPolicy, a negative version comparison against 3.0.0
makes `check()` false and `set()` return nothing without issuing any
command, while a non-negative comparison makes `check()` true and `set()`
issue the `set_policy` command vector. -/
theorem ha_version_gate (env : Env) (p : HAPolicyData) :
    (env.cmpPkgrevno "rabbitmq-server" "3.0.0" < 0 →
      (haCheck env).1 = false ∧
      (Policy.set env (Policy.ha p)).1 = none ∧
      execArgvs (Policy.set env (Policy.ha p)).2 = []) ∧
    (0 ≤ env.cmpPkgrevno "rabbitmq-server" "3.0.0" →
      (haCheck env).1 = true ∧
      (Policy.set env (Policy.ha p)).1 = none ∧
      execArgvs (Policy.set env (Policy.ha p)).2 =
        [["rabbitmqctl", "set_policy", "-p", p.vhost, p.name, p.pattern,
          p.definition, "--apply-to", p.apply_to, "--priority", p.priority]]) := by
  constructor
  · intro h
    refine ⟨by simp [haCheck_of_lt env h], rfl, ?_⟩
    simp [Policy.set, runSet, haCheck_of_lt env h, execArgvs]
  · intro h
    refine ⟨by simp [haCheck_of_ge env h], rfl, ?_⟩
    simp only [Policy.set, runSet, haCheck_of_ge env h, if_true, ite_true]
    cases henv : env.execResult ["rabbitmqctl", "set_policy", "-p", p.vhost,
        p.name, p.pattern, p.definition, "--apply-to", p.apply_to,
        "--priority", p.priority] <;>
      simp [execArgvs]

/-- Witness for C6: with the old-version environment the HA sample issues
nothing and returns nothing; with the new-version environment the check
passes and exactly the `set_policy` vector is issued. -/
theorem ha_version_gate_witness :
    (haCheck envOld).1 = false ∧
    (Policy.set envOld (Policy.ha haSample)).1 = none ∧
    execArgvs (Policy.set envOld (Policy.ha haSample)).2 = [] ∧
    (haCheck envOk).1 = true ∧
    execArgvs (Policy.set envOk (Policy.ha haSample)).2 =
      [["rabbitmqctl", "set_policy", "-p", "/", "HA", "^(?!amq\\.).*",
        haSample.definition, "--apply-to", "queues", "--priority", "1"]] := by
  have h1 := (ha_version_gate envOld haSample).1 (by decide)
  have h2 := (ha_version_gate envOk haSample).2 (by decide)
  exact ⟨h1.1, h1.2.1, h1.2.2, h2.1, h2.2.2⟩

/-- C8: for every policy whose dispatched `check()` holds, a failing
process execution makes `set()` return nothing, log exactly one
ERROR-severity entry, and call status reporting exactly once with blocked
state and the create-failure message. -/
theorem set_failure_path (env : Env) (p : Policy) (e : ExecFailure)
    (hchk : (Policy.checkRun env p).1 = true)
    (hexec : env.execResult ["rabbitmqctl", "set_policy", "-p", p.vhostOf,
      p.nameOf, p.patternOf, p.definitionOf, "--apply-to", p.applyToOf,
      "--priority", p.priorityOf] = Except.error e) :
    (Policy.set env p).1 = none ∧
    (errorLogs (Policy.set env p).2).length = 1 ∧
    statusCalls (Policy.set env p).2 =
      [Event.statusSet "blocked"
        ("RabbitMQ failed to create policy " ++ p.nameOf)] := by
  cases p with
  | base b =>
      simp only [Policy.vhostOf, Policy.nameOf, Policy.patternOf,
        Policy.definitionOf, Policy.applyToOf, Policy.priorityOf] at hexec ⊢
      simp only [Policy.set, runSet, if_true, ite_true]
      rw [hexec]
      simp [errorLogs, statusCalls]
  | ttl t =>
      simp only [Policy.vhostOf, Policy.nameOf, Policy.patternOf,
        Policy.definitionOf, Policy.applyToOf, Policy.priorityOf] at hexec ⊢
      simp only [Policy.set, runSet, if_true, ite_true]
      rw [hexec]
      simp [errorLogs, statusCalls]
  | ha hp =>
      have hch : haCheck env = (true, []) :=
        haCheck_true_eq env (by simpa [Policy.checkRun] using hchk)
      simp only [Policy.vhostOf, Policy.nameOf, Policy.patternOf,
        Policy.definitionOf, Policy.applyToOf, Policy.priorityOf] at hexec ⊢
      simp only [Policy.set, runSet, hch, if_true, ite_true]
      rw [hexec]
      simp [errorLogs, statusCalls]

/-- Witness for C8: the failing environment drives a TTL sample through the
absorbed failure path. -/
theorem set_failure_path_witness :
    (Policy.set envFail (Policy.ttl ttlSample)).1 = none ∧
    (errorLogs (Policy.set envFail (Policy.ttl ttlSample)).2).length = 1 ∧
    statusCalls (Policy.set envFail (Policy.ttl ttlSample)).2 =
      [Event.statusSet "blocked" "RabbitMQ failed to create policy TTL"] := by
  have h := set_failure_path envFail (Policy.ttl ttlSample)
    (ExecFailure.calledProcessError 1 "cmd") rfl rfl
  exact ⟨h.1, h.2.1, by simpa using h.2.2⟩

/-- C9: `clear()` issues exactly `rabbitmqctl clear_policy -p vhost name`;
on success it returns the captured output without status reporting, and on
`CalledProcessError` it returns nothing, logs one ERROR entry, and reports
blocked status once with the clear-failure message. -/
theorem clear_protocol (env : Env) (p : Policy) (out cmd : String)
    (code : Int) :
    (env.execResult ["rabbitmqctl", "clear_policy", "-p", p.vhostOf, p.nameOf]
        = Except.ok out →
      (Policy.clear env p).raised = none ∧
      (Policy.clear env p).result = some out ∧
      execArgvs (Policy.clear env p).events =
        [["rabbitmqctl", "clear_policy", "-p", p.vhostOf, p.nameOf]] ∧
      statusCalls (Policy.clear env p).events = []) ∧
    (env.execResult ["rabbitmqctl", "clear_policy", "-p", p.vhostOf, p.nameOf]
        = Except.error (ExecFailure.calledProcessError code cmd) →
      (Policy.clear env p).raised = none ∧
      (Policy.clear env p).result = none ∧
      execArgvs (Policy.clear env p).events =
        [["rabbitmqctl", "clear_policy", "-p", p.vhostOf, p.nameOf]] ∧
      (errorLogs (Policy.clear env p).events).length = 1 ∧
      statusCalls (Policy.clear env p).events =
        [Event.statusSet "blocked"
          ("RabbitMQ failed to clear policy " ++ p.nameOf)]) := by
  constructor <;> intro hexec <;>
    simp only [Policy.clear] <;> rw [hexec] <;>
    simp [execArgvs, errorLogs, statusCalls]

/-- Witness for C9: the sample base policy cleared under the succeeding and
the failing environments. -/
theorem clear_protocol_witness :
    (Policy.clear envOk (Policy.base baseSample)).result = some "ok" ∧
    execArgvs (Policy.clear envOk (Policy.base baseSample)).events =
      [["rabbitmqctl", "clear_policy", "-p", "/", "HA"]] ∧
    statusCalls (Policy.clear envOk (Policy.base baseSample)).events = [] ∧
    (Policy.clear envFail (Policy.base baseSample)).result = none ∧
    statusCalls (Policy.clear envFail (Policy.base baseSample)).events =
      [Event.statusSet "blocked" "RabbitMQ failed to clear policy HA"] := by
  have h1 := (clear_protocol envOk (Policy.base baseSample) "ok" "cmd" 1).1 rfl
  have h2 := (clear_protocol envFail (Policy.base baseSample) "ok" "cmd" 1).2 rfl
  exact ⟨h1.2.1, h1.2.2.1, h1.2.2.2, h2.2.1, by simpa using h2.2.2.2.2⟩

/-- Counterexample to C1 as stated: at the concrete TTL sample in the
succeeding environment, the inherited base `set()` returns the captured
output `"ok"` while `TTLPolicy.set` (which calls `super().set()` without a
`return`) returns `None`, so the subclass is not functionally identical. -/
theorem ttl_set_return_cex :
    (Policy.checkRun envOk (Policy.ttl ttlSample)).1 = true ∧
    (Policy.inheritedSet envOk (Policy.ttl ttlSample)).1 = some "ok" ∧
    (Policy.set envOk (Policy.ttl ttlSample)).1 = none ∧
    (Policy.set envOk (Policy.ttl ttlSample)).1 ≠
      (Policy.inheritedSet envOk (Policy.ttl ttlSample)).1 := by
  refine ⟨rfl, rfl, rfl, by decide⟩

/-- C1 amended: `TTLPolicy.set` and `HAPolicy.set` run exactly the
inherited check-then-execute sequence with identical side effects, but
discard the inherited return value and return nothing, even when the base
sequence returns the captured command output. -/
theorem ttl_ha_set_drops_return (env : Env) (t : TTLPolicyData)
    (hp : HAPolicyData) (out : String)
    (hexec : env.execResult ["rabbitmqctl", "set_policy", "-p", t.vhost,
      t.name, t.pattern, t.definition, "--apply-to", t.apply_to,
      "--priority", t.priority] = Except.ok out) :
    (Policy.set env (Policy.ttl t)).2 =
      (Policy.inheritedSet env (Policy.ttl t)).2 ∧
    (Policy.set env (Policy.ttl t)).1 = none ∧
    (Policy.set env (Policy.ha hp)).2 =
      (Policy.inheritedSet env (Policy.ha hp)).2 ∧
    (Policy.set env (Policy.ha hp)).1 = none ∧
    (Policy.inheritedSet env (Policy.ttl t)).1 = some out := by
  refine ⟨rfl, rfl, rfl, rfl, ?_⟩
  simp only [Policy.inheritedSet, Policy.className, Policy.checkRun, runSet,
    Policy.vhostOf, Policy.nameOf, Policy.patternOf, Policy.definitionOf,
    Policy.applyToOf, Policy.priorityOf, if_true, ite_true]
  rw [hexec]

/-- Witness for the amended C1 at the concrete samples in the succeeding
environment. -/
theorem ttl_ha_set_drops_return_witness :
    (Policy.set envOk (Policy.ttl ttlSample)).2 =
      (Policy.inheritedSet envOk (Policy.ttl ttlSample)).2 ∧
    (Policy.set envOk (Policy.ttl ttlSample)).1 = none ∧
    (Policy.set envOk (Policy.ha haSample)).2 =
      (Policy.inheritedSet envOk (Policy.ha haSample)).2 ∧
    (Policy.set envOk (Policy.ha haSample)).1 = none ∧
    (Policy.inheritedSet envOk (Policy.ttl ttlSample)).1 = some "ok" :=
  ttl_ha_set_drops_return envOk ttlSample haSample "ok" rfl

/-- Counterexample to C2 as stated: at the concrete HA sample in the
succeeding environment, `check()` holds and the execution returns `"ok"`,
yet `apply()` does not return `"ok"` (the subclass override discards the
value). -/
theorem set_success_return_cex :
    (Policy.checkRun envOk (Policy.ha haSample)).1 = true ∧
    envOk.execResult ["rabbitmqctl", "set_policy", "-p", "/", "HA",
      "^(?!amq\\.).*", haSample.definition, "--apply-to", "queues",
      "--priority", "1"] = Except.ok "ok" ∧
    ¬ (Policy.set envOk (Policy.ha haSample)).1 = some "ok" := by
  refine ⟨rfl, rfl, by decide⟩

/-- C2 amended: for every variant with a true `check()` and an execution
returning `"ok"`, `set()` issues exactly the `set_policy` command vector
and never calls status reporting; the base variant returns `"ok"`, while
the TTL and HA variants return nothing because their overrides discard the
inherited return value. -/
theorem set_success_path (env : Env) (p : Policy)
    (hchk : (Policy.checkRun env p).1 = true)
    (hexec : env.execResult ["rabbitmqctl", "set_policy", "-p", p.vhostOf,
      p.nameOf, p.patternOf, p.definitionOf, "--apply-to", p.applyToOf,
      "--priority", p.priorityOf] = Except.ok "ok") :
    execArgvs (Policy.set env p).2 =
      [["rabbitmqctl", "set_policy", "-p", p.vhostOf, p.nameOf, p.patternOf,
        p.definitionOf, "--apply-to", p.applyToOf, "--priority",
        p.priorityOf]] ∧
    statusCalls (Policy.set env p).2 = [] ∧
    (Policy.set env p).1 =
      (match p with
        | Policy.base _ => some "ok"
        | Policy.ttl _ => none
        | Policy.ha _ => none) := by
  cases p with
  | base b =>
      simp only [Policy.vhostOf, Policy.nameOf, Policy.patternOf,
        Policy.definitionOf, Policy.applyToOf, Policy.priorityOf] at hexec ⊢
      simp only [Policy.set, runSet, if_true, ite_true]
      rw [hexec]
      simp [execArgvs, statusCalls]
  | ttl t =>
      simp only [Policy.vhostOf, Policy.nameOf, Policy.patternOf,
        Policy.definitionOf, Policy.applyToOf, Policy.priorityOf] at hexec ⊢
      simp only [Policy.set, runSet, if_true, ite_true]
      rw [hexec]
      simp [execArgvs, statusCalls]
  | ha hp =>
      have hch : haCheck env = (true, []) :=
        haCheck_true_eq env (by simpa [Policy.checkRun] using hchk)
      simp only [Policy.vhostOf, Policy.nameOf, Policy.patternOf,
        Policy.definitionOf, Policy.applyToOf, Policy.priorityOf] at hexec ⊢
      simp only [Policy.set, runSet, hch, if_true, ite_true]
      rw [hexec]
      simp [execArgvs, statusCalls]

/-- Witness for the amended C2 at the concrete base sample in the
succeeding environment. -/
theorem set_success_path_witness :
    execArgvs (Policy.set envOk (Policy.base baseSample)).2 =
      [["rabbitmqctl", "set_policy", "-p", "/", "HA", "^(?!amq\\.).*",
        baseSample.definition, "--apply-to", "queues", "--priority", "1"]] ∧
    statusCalls (Policy.set envOk (Policy.base baseSample)).2 = [] ∧
    (Policy.set envOk (Policy.base baseSample)).1 = some "ok" := by
  have h := set_success_path envOk (Policy.base baseSample) rfl rfl
  exact ⟨by simpa using h.1, h.2.1, h.2.2⟩

/-- A member value passes the `apply_to` setter unchanged. -/
theorem applyToSet_pos (v : String) (hv : ApplyToMembers.contains v = true) :
    applyToSet v = Except.ok v := by
  unfold applyToSet
  rw [hv]
  simp

/-- A non-member value makes the `apply_to` setter raise. -/
theorem applyToSet_neg (v : String) (hv : ApplyToMembers.contains v = false) :
    applyToSet v = Except.error (PolicyError.invalidEnumValue
      ("Value " ++ v ++ " not in ApplyToTypes.")) := by
  unfold applyToSet
  rw [hv]
  simp

/-- A member value passes the `mode` setter unchanged. -/
theorem modeSet_pos (v : String) (hv : ModeMembers.contains v = true) :
    modeSet v = Except.ok v := by
  unfold modeSet
  rw [hv]
  simp

/-- A non-member value makes the `mode` setter raise. -/
theorem modeSet_neg (v : String) (hv : ModeMembers.contains v = false) :
    modeSet v = Except.error (PolicyError.invalidEnumValue
      ("Value " ++ v ++ " not in ModeTypes.")) := by
  unfold modeSet
  rw [hv]
  simp

/-- A member value passes the `sync_mode` setter unchanged. -/
theorem syncModeSet_pos (v : String) (hv : SyncModeMembers.contains v = true) :
    syncModeSet v = Except.ok v := by
  unfold syncModeSet
  rw [hv]
  simp

/-- A non-member value makes the `sync_mode` setter raise. -/
theorem syncModeSet_neg (v : String) (hv : SyncModeMembers.contains v = false) :
    syncModeSet v = Except.error (PolicyError.invalidEnumValue
      ("Value " ++ v ++ " not in SyncModeTypes.")) := by
  unfold syncModeSet
  rw [hv]
  simp

/-- C5: any value assigned to `apply_to` (any variant) or to
`mode`/`sync_mode` (HAPolicy), at construction or at later mutation, is
accepted and readable unchanged exactly when it is an enumeration member,
and raises `InvalidEnumValue` (Python `ValueError`) otherwise. -/
theorem enum_validation (v vh nm pt pr ty : String) (op od : Option String)
    (tt : Int) (mt : Bool) (ps : Option String) (b : BasePolicyData)
    (t : TTLPolicyData) (hp : HAPolicyData) :
    (ApplyToMembers.contains v = true →
      ∃ q, mkBasePolicy vh nm op od v pr ty = Except.ok q ∧ q.apply_to = v) ∧
    (ApplyToMembers.contains v = false →
      mkBasePolicy vh nm op od v pr ty = Except.error
        (PolicyError.invalidEnumValue ("Value " ++ v ++ " not in ApplyToTypes."))) ∧
    (ApplyToMembers.contains v = true →
      ∃ q, mkTTLPolicy vh nm pt v pr ty tt mt = Except.ok q ∧ q.apply_to = v) ∧
    (ApplyToMembers.contains v = false →
      mkTTLPolicy vh nm pt v pr ty tt mt = Except.error
        (PolicyError.invalidEnumValue ("Value " ++ v ++ " not in ApplyToTypes."))) ∧
    (ApplyToMembers.contains v = true →
      ∃ q, mkHAPolicy vh nm pt v pr ps ty "all" "automatic" = Except.ok q ∧
        q.apply_to = v) ∧
    (ApplyToMembers.contains v = false →
      mkHAPolicy vh nm pt v pr ps ty "all" "automatic" = Except.error
        (PolicyError.invalidEnumValue ("Value " ++ v ++ " not in ApplyToTypes."))) ∧
    (ModeMembers.contains v = true →
      ∃ q, mkHAPolicy vh nm pt "queues" pr ps ty v "automatic" = Except.ok q ∧
        q.mode = v) ∧
    (ModeMembers.contains v = false →
      mkHAPolicy vh nm pt "queues" pr ps ty v "automatic" = Except.error
        (PolicyError.invalidEnumValue ("Value " ++ v ++ " not in ModeTypes."))) ∧
    (SyncModeMembers.contains v = true →
      ∃ q, mkHAPolicy vh nm pt "queues" pr ps ty "all" v = Except.ok q ∧
        q.sync_mode = v) ∧
    (SyncModeMembers.contains v = false →
      mkHAPolicy vh nm pt "queues" pr ps ty "all" v = Except.error
        (PolicyError.invalidEnumValue ("Value " ++ v ++ " not in SyncModeTypes."))) ∧
    (ApplyToMembers.contains v = true →
      ∃ q, b.assignApplyTo v = Except.ok q ∧ q.apply_to = v) ∧
    (ApplyToMembers.contains v = false →
      b.assignApplyTo v = Except.error
        (PolicyError.invalidEnumValue ("Value " ++ v ++ " not in ApplyToTypes."))) ∧
    (ApplyToMembers.contains v = true →
      ∃ q, t.assignApplyTo v = Except.ok q ∧ q.apply_to = v) ∧
    (ApplyToMembers.contains v = false →
      t.assignApplyTo v = Except.error
        (PolicyError.invalidEnumValue ("Value " ++ v ++ " not in ApplyToTypes."))) ∧
    (ApplyToMembers.contains v = true →
      ∃ q, hp.assignApplyTo v = Except.ok q ∧ q.apply_to = v) ∧
    (ApplyToMembers.contains v = false →
      hp.assignApplyTo v = Except.error
        (PolicyError.invalidEnumValue ("Value " ++ v ++ " not in ApplyToTypes."))) ∧
    (ModeMembers.contains v = true →
      ∃ q, hp.assignMode v = Except.ok q ∧ q.mode = v) ∧
    (ModeMembers.contains v = false →
      hp.assignMode v = Except.error
        (PolicyError.invalidEnumValue ("Value " ++ v ++ " not in ModeTypes."))) ∧
    (SyncModeMembers.contains v = true →
      ∃ q, hp.assignSyncMode v = Except.ok q ∧ q.sync_mode = v) ∧
    (SyncModeMembers.contains v = false →
      hp.assignSyncMode v = Except.error
        (PolicyError.invalidEnumValue ("Value " ++ v ++ " not in SyncModeTypes."))) := by
  refine ⟨?_, ?_, ?_, ?_, ?_, ?_, ?_, ?_, ?_, ?_, ?_, ?_, ?_, ?_, ?_, ?_,
    ?_, ?_, ?_, ?_⟩
  · intro hv
    refine ⟨{ vhost := vh, name := nm, pattern := pyStr op,
              definition := pyStr od, apply_to := v, priority := pr,
              type := ty }, ?_, rfl⟩
    simp [mkBasePolicy, applyToSet_pos v hv, Except.map]
  · intro hv
    simp [mkBasePolicy, applyToSet_neg v hv, Except.map]
  · intro hv
    refine ⟨{ vhost := vh, name := nm, pattern := pt, apply_to := v,
              priority := pr, type := ty, ttl := tt, message_ttl := mt },
      ?_, rfl⟩
    simp [mkTTLPolicy, applyToSet_pos v hv, Except.map]
  · intro hv
    simp [mkTTLPolicy, applyToSet_neg v hv, Except.map]
  · intro hv
    refine ⟨{ vhost := vh, name := nm, pattern := pt, apply_to := v,
              priority := pr, params := ps, type := ty, mode := "all",
              sync_mode := "automatic" }, ?_, rfl⟩
    simp [mkHAPolicy, applyToSet_pos v hv, modeSet_pos "all" rfl,
      syncModeSet_pos "automatic" rfl, Except.bind, Except.map]
  · intro hv
    simp [mkHAPolicy, applyToSet_neg v hv, Except.bind]
  · intro hv
    refine ⟨{ vhost := vh, name := nm, pattern := pt,
              apply_to := "queues", priority := pr, params := ps,
              type := ty, mode := v, sync_mode := "automatic" }, ?_, rfl⟩
    simp [mkHAPolicy, applyToSet_pos "queues" rfl, modeSet_pos v hv,
      syncModeSet_pos "automatic" rfl, Except.bind, Except.map]
  · intro hv
    simp [mkHAPolicy, applyToSet_pos "queues" rfl, modeSet_neg v hv,
      Except.bind]
  · intro hv
    refine ⟨{ vhost := vh, name := nm, pattern := pt,
              apply_to := "queues", priority := pr, params := ps,
              type := ty, mode := "all", sync_mode := v }, ?_, rfl⟩
    simp [mkHAPolicy, applyToSet_pos "queues" rfl, modeSet_pos "all" rfl,
      syncModeSet_pos v hv, Except.bind, Except.map]
  · intro hv
    simp [mkHAPolicy, applyToSet_pos "queues" rfl, modeSet_pos "all" rfl,
      syncModeSet_neg v hv, Except.bind, Except.map]
  · intro hv
    refine ⟨{ b with apply_to := v }, ?_, rfl⟩
    simp [BasePolicyData.assignApplyTo, applyToSet_pos v hv, Except.map]
  · intro hv
    simp [BasePolicyData.assignApplyTo, applyToSet_neg v hv, Except.map]
  · intro hv
    refine ⟨{ t with apply_to := v }, ?_, rfl⟩
    simp [TTLPolicyData.assignApplyTo, applyToSet_pos v hv, Except.map]
  · intro hv
    simp [TTLPolicyData.assignApplyTo, applyToSet_neg v hv, Except.map]
  · intro hv
    refine ⟨{ hp with apply_to := v }, ?_, rfl⟩
    simp [HAPolicyData.assignApplyTo, applyToSet_pos v hv, Except.map]
  · intro hv
    simp [HAPolicyData.assignApplyTo, applyToSet_neg v hv, Except.map]
  · intro hv
    refine ⟨{ hp with mode := v }, ?_, rfl⟩
    simp [HAPolicyData.assignMode, modeSet_pos v hv, Except.map]
  · intro hv
    simp [HAPolicyData.assignMode, modeSet_neg v hv, Except.map]
  · intro hv
    refine ⟨{ hp with sync_mode := v }, ?_, rfl⟩
    simp [HAPolicyData.assignSyncMode, syncModeSet_pos v hv, Except.map]
  · intro hv
    simp [HAPolicyData.assignSyncMode, syncModeSet_neg v hv, Except.map]

/-- Witness for C5: a valid and an invalid `apply_to` at construction, a
valid `mode` mutation, and an invalid `sync_mode` mutation, all at concrete
values. -/
theorem enum_validation_witness :
    (∃ q, mkTTLPolicy "openstack" "TTL" "foo" "exchanges" "1" "ttl" 3600000
      true = Except.ok q ∧ q.apply_to = "exchanges") ∧
    mkTTLPolicy "openstack" "TTL" "foo" "bar" "1" "ttl" 3600000 true =
      Except.error (PolicyError.invalidEnumValue
        "Value bar not in ApplyToTypes.") ∧
    (∃ q, HAPolicyData.assignMode haSample "nodes" = Except.ok q ∧
      q.mode = "nodes") ∧
    HAPolicyData.assignSyncMode haSample "foo" =
      Except.error (PolicyError.invalidEnumValue
        "Value foo not in SyncModeTypes.") := by
  obtain ⟨-, -, c3, -, -, -, -, -, -, -, -, -, -, -, -, -, -, -, -, -⟩ :=
    enum_validation "exchanges" "openstack" "TTL" "foo" "1" "ttl" none none
      3600000 true none baseSample ttlSample haSample
  obtain ⟨-, -, -, c4, -, -, -, -, -, -, -, -, -, -, -, -, -, -, -, -⟩ :=
    enum_validation "bar" "openstack" "TTL" "foo" "1" "ttl" none none
      3600000 true none baseSample ttlSample haSample
  obtain ⟨-, -, -, -, -, -, -, -, -, -, -, -, -, -, -, -, c17, -, -, -⟩ :=
    enum_validation "nodes" "openstack" "TTL" "foo" "1" "ttl" none none
      3600000 true none baseSample ttlSample haSample
  obtain ⟨-, -, -, -, -, -, -, -, -, -, -, -, -, -, -, -, -, -, -, c20⟩ :=
    enum_validation "foo" "openstack" "TTL" "foo" "1" "ttl" none none
      3600000 true none baseSample ttlSample haSample
  refine ⟨c3 rfl, ?_, c17 rfl, ?_⟩
  · simpa using c4 rfl
  · simpa using c20 rfl

end RabbitPolicies
